import Mathlib

set_option maxRecDepth 4000

/-- A JSON-like Python value, as handled by `reddit_parsers.py`: the raw
documents are untyped nested dicts produced by `json` decoding, so values are
strings, integers, floats, booleans, `None`, nested dicts or lists.  Floats
are modelled as rationals (the parser never computes with them, it only copies
them and uses the default `0.0`). -/
inductive JVal where
  | null : JVal
  | str : String → JVal
  | int : Int → JVal
  | float : Rat → JVal
  | bool : Bool → JVal
  | dict : List (String × JVal) → JVal
  | list : List JVal → JVal

/-- The Python exceptions that can escape the parser's functions:
`TypeError` (e.g. `re.findall(None)`, subscripting a non-dict),
`AttributeError` (`.get` on a non-dict), `KeyError` (`d[k]` with `k` absent),
`ValueError` and `SyntaxError` (raised by `ast.literal_eval`; only
`ValueError` is caught by the `except ValueError` clause in
`extract_youtube_media`). -/
inductive PyErr where
  | tyErr : PyErr
  | attrErr : PyErr
  | keyErr : PyErr
  | valErr : PyErr
  | synErr : PyErr
deriving DecidableEq

/-- First-match association lookup, the semantics of Python dict key lookup on
our association-list model of dicts. -/
def jLookup : List (String × JVal) → String → Option JVal
  | [], _ => none
  | (k', v) :: rest, k => if k' = k then some v else jLookup rest k

/-- `d.get(k, default)` on a dict modelled as an association list. -/
def jLookupD (kvs : List (String × JVal)) (k : String) (d : JVal) : JVal :=
  match jLookup kvs k with
  | some v => v
  | none => d

/-- `doc.get(k, {})`: the default empty dict is used only when the key is
absent (a present `None` value is returned as-is, as in Python). -/
def jLookupDefDict (kvs : List (String × JVal)) (k : String) : JVal :=
  match jLookup kvs k with
  | some v => v
  | none => .dict []

/-- `v.get(k, d)` on an arbitrary value: Python raises `AttributeError` when
`v` is not a dict (only dicts have `.get`). -/
def attrGetD (v : JVal) (k : String) (d : JVal) : Except PyErr JVal :=
  match v with
  | .dict kvs => .ok (jLookupD kvs k d)
  | _ => .error .attrErr

/-- `v[k]` subscription with a string key: `KeyError` on a dict missing the
key, `TypeError` on any non-dict value (string/list indices must be
integers). -/
def jSub (v : JVal) (k : String) : Except PyErr JVal :=
  match v with
  | .dict kvs =>
    match jLookup kvs k with
    | some x => .ok x
    | none => .error .keyErr
  | _ => .error .tyErr

/-- Python `v == "None"`: true exactly when `v` is the string `"None"`
(comparisons across types are `False`). -/
def isStrNone (v : JVal) : Bool :=
  match v with
  | .str s => s = "None"
  | _ => false

/-- `d[k] = v` on an association list: overwrite the first binding of `k`, or
append a fresh binding — the update semantics of a Python dict entry. -/
def pySet : List (String × JVal) → String → JVal → List (String × JVal)
  | [], k, v => [(k, v)]
  | (k', v') :: rest, k, v =>
    if k' = k then (k, v) :: rest else (k', v') :: pySet rest k v

/-- `d.update(es)`: set every binding of `es` in order. -/
def pyUpdate (d : List (String × JVal)) (es : List (String × JVal)) :
    List (String × JVal) :=
  es.foldl (fun acc kv => pySet acc kv.1 kv.2) d

/-- `\w` of the source's URL regex, over the ASCII documents in play:
alphanumeric or underscore. -/
def isWordChar (c : Char) : Bool :=
  c.isAlphanum || c = '_'

/-- The class `[\w\-]` (host labels of `url_pattern`). -/
def hostChar (c : Char) : Bool :=
  isWordChar c || c = '-'

/-- The class `[\w.,@?^=%&:\/~+#-]` (the path/query body of `url_pattern`). -/
def midChar (c : Char) : Bool :=
  isWordChar c || c = '.' || c = ',' || c = '@' || c = '?' || c = '^' ||
    c = '=' || c = '%' || c = '&' || c = ':' || c = '/' || c = '~' ||
    c = '+' || c = '#' || c = '-'

/-- The class `[\w@?^=%&\/~+#-]` (the final character of `url_pattern`; note
it excludes `.` and `,`, which is what drops trailing sentence
punctuation). -/
def lastChar (c : Char) : Bool :=
  isWordChar c || c = '@' || c = '?' || c = '^' || c = '=' || c = '%' ||
    c = '&' || c = '/' || c = '~' || c = '+' || c = '#' || c = '-'

/-- Match a literal string prefix; deterministic, returns the rest. -/
def matchLit : List Char → List Char → Option (List Char)
  | [], s => some s
  | _, [] => none
  | l :: ls, c :: cs => if l = c then matchLit ls cs else none

/-- Greedy Kleene star over a one-character class, continuation-passing so
that the backtracking order is exactly Python `re`'s: longest first, then give
back one character at a time. -/
def starCls (p : Char → Bool) : List Char → (List Char → Option (List Char)) →
    Option (List Char)
  | [], k => k []
  | c :: rest, k =>
    if p c then (starCls p rest k).orElse (fun _ => k (c :: rest))
    else k (c :: rest)

/-- Greedy `+` over a one-character class: one mandatory character, then a
greedy star. -/
def plusCls (p : Char → Bool) (s : List Char)
    (k : List Char → Option (List Char)) : Option (List Char) :=
  match s with
  | [] => none
  | c :: rest => if p c then starCls p rest k else none

/-- Greedy star of the group `(?:\.[\w\-]+)`, with fuel (each iteration
consumes at least two characters, so fuel `length s + 1` is never
exhausted). -/
def dotGroupStar : Nat → List Char → (List Char → Option (List Char)) →
    Option (List Char)
  | 0, s, k => k s
  | fuel + 1, s, k =>
    (match s with
     | '.' :: rest => plusCls hostChar rest (fun r => dotGroupStar fuel r k)
     | _ => none).orElse (fun _ => k s)

/-- Greedy `(?:\.[\w\-]+)+`: one mandatory group, then the greedy star. -/
def dotGroupPlus (fuel : Nat) (s : List Char)
    (k : List Char → Option (List Char)) : Option (List Char) :=
  match s with
  | '.' :: rest => plusCls hostChar rest (fun r => dotGroupStar fuel r k)
  | _ => none

/-- Greedy `s?` (the optional character of `https?`). -/
def optChar (c : Char) (s : List Char) (k : List Char → Option (List Char)) :
    Option (List Char) :=
  match s with
  | c' :: rest =>
    if c' = c then (k rest).orElse (fun _ => k (c' :: rest)) else k s
  | [] => k s

/-- Greedy `(?:www\.)?`. -/
def optWww (s : List Char) (k : List Char → Option (List Char)) :
    Option (List Char) :=
  match matchLit ("www.".data) s with
  | some rest => (k rest).orElse (fun _ => k s)
  | none => k s

/-- Try to match the source's `url_pattern`
`https?:\/\/(?:www\.)?[\w\-]+(?:\.[\w\-]+)+[\w.,@?^=%&:\/~+#-]*[\w@?^=%&\/~+#-]`
anchored at the start of `s`; on success return the remaining suffix after the
(leftmost, greedy-with-backtracking) match. -/
def matchUrlAt (s : List Char) : Option (List Char) :=
  (matchLit ("http".data) s).bind (fun s1 =>
    optChar 's' s1 (fun s2 =>
      (matchLit ("://".data) s2).bind (fun s3 =>
        optWww s3 (fun s4 =>
          plusCls hostChar s4 (fun s5 =>
            dotGroupPlus (s.length + 1) s5 (fun s6 =>
              starCls midChar s6 (fun s7 =>
                match s7 with
                | c :: rest8 => if lastChar c then some rest8 else none
                | [] => none)))))))

/-- `re.findall` over the URL pattern: scan left to right, at each position
try a match; on success emit the matched text and resume after it, otherwise
advance one character.  Fuel `length + 1` bounds the number of steps (each
step consumes at least one character). -/
def findallAux : Nat → List Char → List String
  | 0, _ => []
  | _ + 1, [] => []
  | fuel + 1, c :: rest =>
    match matchUrlAt (c :: rest) with
    | some remaining =>
      String.mk ((c :: rest).take ((c :: rest).length - remaining.length)) ::
        findallAux fuel remaining
    | none => findallAux fuel rest

/-- `url_pattern.findall(s)`. -/
def url_findall (s : String) : List String :=
  findallAux (s.data.length + 1) s.data

/-- `RedditParser.extract_urls_from_selftext`: runs
`url_pattern.findall(parsed_data.get("selftext"))`.  When the self-text value
is absent or not a string, `re.findall` raises `TypeError` (its argument must
be a string). -/
def extract_urls_from_selftext (parsed_data : List (String × JVal)) :
    Except PyErr (List String) :=
  match jLookupD parsed_data "selftext" .null with
  | .str s => .ok (url_findall s)
  | _ => .error .tyErr

/-- The character `{` (written via its code point to keep string literals
free of braces). -/
def lbrace : Char := Char.ofNat 123

/-- The character `}`. -/
def rbrace : Char := Char.ofNat 125

/-- Skip ASCII whitespace, as CPython's tokenizer does between tokens. -/
def skipWs : List Char → List Char
  | [] => []
  | c :: rest => if c = ' ' || c = '\t' || c = '\n' then skipWs rest else c :: rest

/-- Scan the body of a single-quoted Python string literal up to the closing
quote (escape sequences are not modelled; none occur in the documents in
play).  `none` on an unterminated literal. -/
def scanStr : List Char → Option (List Char × List Char)
  | [] => none
  | c :: rest =>
    if c = '\'' then some ([], rest)
    else
      match scanStr rest with
      | some (body, r) => some (c :: body, r)
      | none => none

/-- Scan a run of decimal digits, most significant first. -/
def scanDigits : List Char → Nat → (Nat × List Char)
  | [], acc => (acc, [])
  | c :: rest, acc =>
    if c.isDigit then scanDigits rest (acc * 10 + (c.toNat - 48))
    else (acc, c :: rest)

/-- Scan a Python identifier (letters, digits, underscore, starting with a
letter or underscore). -/
def scanIdent : List Char → (List Char × List Char)
  | [] => ([], [])
  | c :: rest =>
    if isWordChar c then
      match scanIdent rest with
      | (body, r) => (c :: body, r)
    else ([], c :: rest)

/-- The three entry points of the literal parser: a whole literal, the tail
of a `[...]` display, the tail of a brace-delimited dict display. -/
inductive PMode where
  | lit : PMode
  | seqTail : PMode
  | dictTail : PMode

/-- Model of CPython `ast.literal_eval`'s parsing, for the literal forms
occurring in the analysed documents: single-quoted strings without escapes,
integers, `True`/`False`/`None`, lists and dicts with string keys.
A bare identifier is a `Name` node, rejected with `ValueError` (as CPython's
`_convert` does); text that does not parse at all is a `SyntaxError`.
The three modes are merged into one function structurally recursive on fuel;
the fuel strictly decreases on every recursive call, and `length + 4` is
always sufficient, since every nested call follows the consumption of at
least one character. -/
def parseL : Nat → PMode → List Char → Except PyErr (JVal × List Char)
  | 0, _, _ => .error .synErr
  | fuel + 1, .lit, s =>
    (match skipWs s with
     | [] => .error .synErr
     | c :: rest =>
       if c = '\'' then
         match scanStr rest with
         | some (body, r) => .ok (.str (String.mk body), r)
         | none => .error .synErr
       else if c.isDigit then
         match scanDigits (c :: rest) 0 with
         | (n, r) => .ok (.int (Int.ofNat n), r)
       else if c = '-' then
         match rest with
         | d :: rest' =>
           if d.isDigit then
             match scanDigits (d :: rest') 0 with
             | (n, r) => .ok (.int (-(Int.ofNat n)), r)
           else .error .synErr
         | [] => .error .synErr
       else if c = '[' then parseL fuel .seqTail rest
       else if c = lbrace then parseL fuel .dictTail rest
       else if isWordChar c then
         match scanIdent (c :: rest) with
         | (body, r) =>
           if String.mk body = "True" then .ok (.bool true, r)
           else if String.mk body = "False" then .ok (.bool false, r)
           else if String.mk body = "None" then .ok (.null, r)
           else .error .valErr
       else .error .synErr)
  | fuel + 1, .seqTail, s =>
    (match skipWs s with
     | ']' :: rest => .ok (.list [], rest)
     | s' =>
       match parseL fuel .lit s' with
       | .error e => .error e
       | .ok (v, r) =>
         match skipWs r with
         | ']' :: rest => .ok (.list [v], rest)
         | ',' :: r' =>
           match parseL fuel .seqTail r' with
           | .error e => .error e
           | .ok (.list vs, rest) => .ok (.list (v :: vs), rest)
           | .ok _ => .error .synErr
         | _ => .error .synErr)
  | fuel + 1, .dictTail, s =>
    (match skipWs s with
     | [] => .error .synErr
     | c :: rest =>
       if c = rbrace then .ok (.dict [], rest)
       else
         match parseL fuel .lit (c :: rest) with
         | .error e => .error e
         | .ok (.str k, r) =>
           match skipWs r with
           | ':' :: r' =>
             match parseL fuel .lit r' with
             | .error e => .error e
             | .ok (v, r2) =>
               match skipWs r2 with
               | c2 :: rest2 =>
                 if c2 = rbrace then .ok (.dict [(k, v)], rest2)
                 else if c2 = ',' then
                   match parseL fuel .dictTail rest2 with
                   | .error e => .error e
                   | .ok (.dict kvs, rest3) => .ok (.dict ((k, v) :: kvs), rest3)
                   | .ok _ => .error .synErr
                 else .error .synErr
               | [] => .error .synErr
           | _ => .error .synErr
         | .ok _ => .error .synErr)

/-- `ast.literal_eval` on an arbitrary Python value: a non-string argument is
a malformed node (`ValueError`, e.g. `literal_eval(None)`); a string is
parsed as a literal, requiring the whole input to be consumed. -/
def literal_eval (v : JVal) : Except PyErr JVal :=
  match v with
  | .str s =>
    match parseL (s.data.length + 4) .lit s.data with
    | .error e => .error e
    | .ok (j, rest) =>
      if (skipWs rest).isEmpty then .ok j else .error .synErr
  | _ => .error .valErr

/-- A character of the capture class `[^/?]` of the video-id pattern. -/
def notSlashQ (c : Char) : Bool :=
  !(c = '/' || c = '?')

/-- `re.search(r"youtube\.com/embed/([^/?]+)", html)`: scan left to right for
the literal followed by at least one capturable character; return the greedy
capture of group 1. -/
def vidSearch : List Char → Option String
  | [] => none
  | c :: rest =>
    match matchLit ("youtube.com/embed/".data) (c :: rest) with
    | some r =>
      match r with
      | d :: _ =>
        if notSlashQ d then some (String.mk (r.takeWhile notSlashQ))
        else vidSearch rest
      | [] => vidSearch rest
    | none => vidSearch rest

/-- `RedditParser._extract_video_id`, lifted to the raw embed value:
`re.search` demands a string (`TypeError` otherwise); when the pattern does
not match, the id defaults to the string `"None"`. -/
def extract_video_id (v : JVal) : Except PyErr JVal :=
  match v with
  | .str h =>
    .ok (match vidSearch h.data with
         | some i => .str i
         | none => .str "None")
  | _ => .error .tyErr

/-- Does the character list contain the given literal as a substring? -/
def containsLit (needle : List Char) : List Char → Bool
  | [] => needle.isEmpty
  | c :: rest => (matchLit needle (c :: rest)).isSome || containsLit needle rest

/-- Python `v == s` for a string literal `s` (cross-type comparison is
`False`). -/
def isStrEq (v : JVal) (s : String) : Bool :=
  match v with
  | .str t => t = s
  | _ => false

/-- Python `"type" in v`: key membership on a dict, substring test on a
string, element membership on a list, `TypeError` on anything else. -/
def inType (v : JVal) : Except PyErr Bool :=
  match v with
  | .dict kvs => .ok (jLookup kvs "type").isSome
  | .str s => .ok (containsLit ("type".data) s.data)
  | .list xs => .ok (xs.any (fun x => isStrEq x "type"))
  | _ => .error .tyErr

/-- `RedditParser.extract_youtube_media`: reads the thread dict's `media`
value; the sentinel string `"None"` short-circuits to `"None"`; otherwise the
value is decoded with `ast.literal_eval` (only `ValueError` is caught and
degraded to `"None"`; `SyntaxError` escapes).  On a decoded mapping whose
`type` is `"youtube.com"`, the four media fields are extracted —
`media_dict["oembed"]` is a bare subscription, so a missing or non-mapping
`oembed` raises `KeyError`/`AttributeError`, and a missing `html` raises
`KeyError`, none of which are caught. -/
def extract_youtube_media (parsed_thread : List (String × JVal)) :
    Except PyErr JVal :=
  let media_str := jLookupD parsed_thread "media" .null
  if isStrNone media_str then .ok (.str "None")
  else
    match literal_eval media_str with
    | .error .valErr => .ok (.str "None")
    | .error e => .error e
    | .ok media_dict =>
      match inType media_dict with
      | .error e => .error e
      | .ok false => .ok (.str "None")
      | .ok true =>
        match media_dict with
        | .dict kvs =>
          if isStrEq (jLookupD kvs "type" .null) "youtube.com" then
            match jSub media_dict "oembed" with
            | .error e => .error e
            | .ok ov =>
              match attrGetD ov "author_name" (.str "None") with
              | .error e => .error e
              | .ok an =>
                match attrGetD ov "author_url" (.str "None") with
                | .error e => .error e
                | .ok au =>
                  match attrGetD ov "title" (.str "None") with
                  | .error e => .error e
                  | .ok ti =>
                    match jSub media_dict "oembed" with
                    | .error e => .error e
                    | .ok ov2 =>
                      match jSub ov2 "html" with
                      | .error e => .error e
                      | .ok htmlv =>
                        match extract_video_id htmlv with
                        | .error e => .error e
                        | .ok vid =>
                          .ok (.dict [("media_author_name", an),
                                      ("media_author_url", au),
                                      ("video_title", ti),
                                      ("video_id", vid)])
          else .ok (.str "None")
        | _ => .error .tyErr

/-- The value stored under `author_name` by `parse_thread` when the author
branch does not raise: `thread_json.get("author", \x7b\x7d).get("name", None)`
guarded by the `!= "None"` sentinel test. -/
def authorNameVal (doc : List (String × JVal)) : JVal :=
  if isStrNone (jLookupD doc "author" .null) then .null
  else
    match jLookupDefDict doc "author" with
    | .dict kvs => jLookupD kvs "name" .null
    | _ => .null

/-- The value stored under `subreddit_id` when the subreddit branch does not
raise. -/
def subIdVal (doc : List (String × JVal)) : JVal :=
  match jLookupDefDict doc "subreddit" with
  | .dict kvs => jLookupD kvs "id" .null
  | _ => .null

/-- The fifteen-entry thread dict built by `parse_thread` before the YouTube
update, with every per-field default of the source (`None` for identifiers
and text, `0` for counts, `0.0` for the ratio, `False` for the flag), for a
document on which no extraction step raises. -/
def threadDictOf (doc : List (String × JVal)) (urls : List String) :
    List (String × JVal) :=
  [("thread_name", jLookupD doc "name" .null),
   ("subreddit_name", jLookupD doc "subreddit_name_prefixed" .null),
   ("subreddit_id", subIdVal doc),
   ("title", jLookupD doc "title" .null),
   ("author_name", authorNameVal doc),
   ("num_comments", jLookupD doc "num_comments" (.int 0)),
   ("ups", jLookupD doc "ups" (.int 0)),
   ("downs", jLookupD doc "downs" (.int 0)),
   ("upvote_ratio", jLookupD doc "upvote_ratio" (.float 0)),
   ("score", jLookupD doc "score" (.int 0)),
   ("selftext", jLookupD doc "selftext" .null),
   ("media", jLookupD doc "media" .null),
   ("media_only", jLookupD doc "media_only" (.bool false)),
   ("created_utc", jLookupD doc "created_utc" (.int 0)),
   ("urls", .list (urls.map .str))]

/-- `RedditParser.parse_thread`: the fallible steps, in source evaluation
order — the nested `subreddit` get, the sentinel-guarded `author` get, the
URL extraction from the self-text, the YouTube media extraction, and finally
the conditional `dict.update` with the four media entries. -/
def parse_thread (doc : List (String × JVal)) :
    Except PyErr (List (String × JVal)) :=
  match attrGetD (jLookupDefDict doc "subreddit") "id" .null with
  | .error e => .error e
  | .ok _ =>
    match (if isStrNone (jLookupD doc "author" .null) then Except.ok JVal.null
           else attrGetD (jLookupDefDict doc "author") "name" .null) with
    | .error e => .error e
    | .ok _ =>
      match extract_urls_from_selftext doc with
      | .error e => .error e
      | .ok urls =>
        match extract_youtube_media (threadDictOf doc urls) with
        | .error e => .error e
        | .ok yt =>
          if isStrNone yt then .ok (threadDictOf doc urls)
          else
            match yt with
            | .dict es => .ok (pyUpdate (threadDictOf doc urls) es)
            | _ => .error .tyErr

/-- The shape hypotheses under which no step of `parse_thread` raises: the
self-text is a string (`re.findall` demands one), the `subreddit` and
`author` values, when present, are mappings (their `.get` would raise
`AttributeError` otherwise) — the author may also be the `"None"` sentinel —
and the `media` value is absent, null, or the `"None"` sentinel (so that its
decoding degrades through the caught `ValueError`). -/
def WellShaped (doc : List (String × JVal)) : Prop :=
  (∃ s, jLookup doc "selftext" = some (.str s)) ∧
  (jLookup doc "subreddit" = none ∨
    ∃ kvs, jLookup doc "subreddit" = some (.dict kvs)) ∧
  (jLookup doc "author" = none ∨ jLookup doc "author" = some (.str "None") ∨
    ∃ kvs, jLookup doc "author" = some (.dict kvs)) ∧
  (jLookup doc "media" = none ∨ jLookup doc "media" = some JVal.null ∨
    jLookup doc "media" = some (.str "None"))

/-- The flat comment record built by `_parse_comment_tree` for one node: one
field per key of the source dict literal, every value a raw lookup with the
source's default (`None` for identifiers and text, `0` for counts, `False`
for the submitter flag), plus the `parent_id` passed down by the caller. -/
structure CRec where
  id : JVal
  body : JVal
  author_name : JVal
  created_utc : JVal
  score : JVal
  is_submitter : JVal
  parent_id : JVal
  link_id : JVal
  permalink : JVal
  controversiality : JVal
  gilded : JVal

/-- The record construction of `_parse_comment_tree` (lines 76–90): note
`author_name` copies `comment.get("author", None)` verbatim, with no `"None"`
sentinel normalization. -/
def commentRecord (comment : List (String × JVal)) (parent_id : JVal) : CRec :=
  { id := jLookupD comment "id" .null,
    body := jLookupD comment "body" .null,
    author_name := jLookupD comment "author" .null,
    created_utc := jLookupD comment "created_utc" .null,
    score := jLookupD comment "score" (.int 0),
    is_submitter := jLookupD comment "is_submitter" (.bool false),
    parent_id := parent_id,
    link_id := jLookupD comment "link_id" .null,
    permalink := jLookupD comment "permalink" .null,
    controversiality := jLookupD comment "controversiality" (.int 0),
    gilded := jLookupD comment "gilded" (.int 0) }

/-- Sequence the recursive flattening of a list of replies: Python's
`for reply in replies: comment_data.extend(...)` raises the first child's
exception and concatenates the flat lists otherwise.  The `none` result of
the fuel-indexed recursion (fuel exhaustion) is propagated. -/
def parse_comment_list (f : JVal → JVal → Option (Except PyErr (List CRec))) :
    List JVal → JVal → Option (Except PyErr (List CRec))
  | [], _ => some (.ok [])
  | r :: rs, pid =>
    match f r pid with
    | none => none
    | some (.error e) => some (.error e)
    | some (.ok l1) =>
      match parse_comment_list f rs pid with
      | none => none
      | some (.error e) => some (.error e)
      | some (.ok l2) => some (.ok (l1 ++ l2))

/-- `RedditParser._parse_comment_tree`, with an explicit recursion budget:
`none` means the budget was exhausted before the traversal finished, so a
`some` result with budget `n` witnesses termination of the source's
unbounded recursion within depth `n`.  One record is built for the node
itself; then each element of `comment.get("replies", [])` is flattened
recursively with `comment.get("id")` as its `parent_id`, and the results are
concatenated in source order.  A non-dict node raises `AttributeError`
(`.get` on a non-dict); a non-list `replies` value raises `TypeError` when
iterated. -/
def parse_comment_tree : Nat → JVal → JVal → Option (Except PyErr (List CRec))
  | 0, _, _ => none
  | fuel + 1, comment, parent_id =>
    match comment with
    | .dict kvs =>
      (match jLookupD kvs "replies" (.list []) with
       | .list rs =>
         match parse_comment_list (parse_comment_tree fuel) rs
             (jLookupD kvs "id" .null) with
         | none => none
         | some (.error e) => some (.error e)
         | some (.ok l) => some (.ok (commentRecord kvs parent_id :: l))
       | _ => some (.error .tyErr))
    | _ => some (.error .attrErr)

/-- `RedditParser.parse_comment` applied to every root of a comment forest
with the initial `parent_id = None`, concatenating in forest order — the
overall flattening entry point described by the spec. -/
def parse_comment_forest (fuel : Nat) (roots : List JVal) :
    Option (Except PyErr (List CRec)) :=
  parse_comment_list (parse_comment_tree fuel) roots JVal.null

mutual
/-- A well-formed comment tree: a node carries its scalar fields (an
association list) and a finite forest of replies.  `CForest` is the list of
children, kept as a mutual inductive so that structural recursion and
induction over trees and forests are direct. -/
inductive CTree where
  | node : List (String × JVal) → CForest → CTree

/-- A finite sequence of comment trees (the forest of roots, or the replies
of one node). -/
inductive CForest where
  | fnil : CForest
  | fcons : CTree → CForest → CForest
end

mutual
/-- Number of nodes of a tree. -/
def csize : CTree → Nat
  | .node _ cs => 1 + fsize cs

/-- Number of nodes of a forest. -/
def fsize : CForest → Nat
  | .fnil => 0
  | .fcons t f => csize t + fsize f
end

mutual
/-- The raw document of a comment tree: the node's fields plus its `replies`
key holding the children's documents in order (placed first, so that it is
the binding found by a `replies` lookup). -/
def treeDoc : CTree → JVal
  | .node fs cs => .dict (("replies", .list (forestDocs cs)) :: fs)

/-- The raw documents of a forest, in order. -/
def forestDocs : CForest → List JVal
  | .fnil => []
  | .fcons t f => treeDoc t :: forestDocs f
end

mutual
/-- Modelled from the spec: depth-first pre-order flattening — each node's
record (built from its own fields and the `parent_id` handed to it) followed
by the flattening of its replies in source order, with the node's own `id`
as the children's `parent_id`. -/
def flattenT : CTree → JVal → List CRec
  | .node fs cs, p =>
    commentRecord fs p :: flattenF cs (jLookupD fs "id" .null)

/-- Modelled from the spec: pre-order flattening of a forest, siblings in
source order. -/
def flattenF : CForest → JVal → List CRec
  | .fnil, _ => []
  | .fcons t f, pid => flattenT t pid ++ flattenF f pid
end

mutual
/-- The parent identifier each node's record must carry, in pre-order: the
value handed to the root, then for every reply the parent's own `id`
field. -/
def parentsT : CTree → JVal → List JVal
  | .node fs cs, p => p :: parentsF cs (jLookupD fs "id" .null)

/-- Forest version of `parentsT`. -/
def parentsF : CForest → JVal → List JVal
  | .fnil, _ => []
  | .fcons t f, pid => parentsT t pid ++ parentsF f pid
end

theorem jLookupD_cons_ne (k' : String) (v : JVal) (rest : List (String × JVal))
    (k : String) (d : JVal) (h : k' ≠ k) :
    jLookupD ((k', v) :: rest) k d = jLookupD rest k d := by
  simp [jLookupD, jLookup, h]

theorem jLookupD_cons_eq (k : String) (v : JVal) (rest : List (String × JVal))
    (d : JVal) : jLookupD ((k, v) :: rest) k d = v := by
  simp [jLookupD, jLookup]

theorem jLookupD_replies_id (x : JVal) (fs : List (String × JVal)) (d : JVal) :
    jLookupD (("replies", x) :: fs) "id" d = jLookupD fs "id" d :=
  jLookupD_cons_ne _ _ _ _ _ (by decide)

theorem commentRecord_skip_replies (x : JVal) (fs : List (String × JVal))
    (p : JVal) :
    commentRecord (("replies", x) :: fs) p = commentRecord fs p := by
  simp [commentRecord, jLookupD, jLookup]

mutual
theorem parse_tree_correct :
    ∀ (t : CTree) (fuel : Nat) (p : JVal), csize t ≤ fuel →
      parse_comment_tree fuel (treeDoc t) p = some (.ok (flattenT t p))
  | .node fs cs, fuel, p, h => by
    cases fuel with
    | zero => simp [csize] at h
    | succ fuel' =>
      have hc : fsize cs ≤ fuel' := by
        simp only [csize] at h
        omega
      have ihf := parse_forest_correct cs fuel' (jLookupD fs "id" .null) hc
      simp only [treeDoc, parse_comment_tree, jLookupD_cons_eq,
        jLookupD_replies_id, ihf, flattenT, commentRecord_skip_replies]

theorem parse_forest_correct :
    ∀ (f : CForest) (fuel : Nat) (pid : JVal), fsize f ≤ fuel →
      parse_comment_list (parse_comment_tree fuel) (forestDocs f) pid =
        some (.ok (flattenF f pid))
  | .fnil, fuel, pid, _ => by
    simp [forestDocs, parse_comment_list, flattenF]
  | .fcons t f', fuel, pid, h => by
    have ht : csize t ≤ fuel := by
      simp only [fsize] at h
      omega
    have hf : fsize f' ≤ fuel := by
      simp only [fsize] at h
      omega
    have iht := parse_tree_correct t fuel pid ht
    have ihf := parse_forest_correct f' fuel pid hf
    simp [forestDocs, parse_comment_list, flattenF, iht, ihf]
end

mutual
theorem flattenT_length :
    ∀ (t : CTree) (p : JVal), (flattenT t p).length = csize t
  | .node fs cs, p => by
    simp [flattenT, csize, flattenF_length cs (jLookupD fs "id" .null)]
    omega

theorem flattenF_length :
    ∀ (f : CForest) (pid : JVal), (flattenF f pid).length = fsize f
  | .fnil, _ => by simp [flattenF, fsize]
  | .fcons t f', pid => by
    simp [flattenF, fsize, flattenT_length t pid, flattenF_length f' pid]
end

mutual
theorem flattenT_parents :
    ∀ (t : CTree) (p : JVal), (flattenT t p).map CRec.parent_id = parentsT t p
  | .node fs cs, p => by
    simp [flattenT, parentsT, commentRecord,
      flattenF_parents cs (jLookupD fs "id" .null)]

theorem flattenF_parents :
    ∀ (f : CForest) (pid : JVal),
      (flattenF f pid).map CRec.parent_id = parentsF f pid
  | .fnil, _ => by simp [flattenF, parentsF]
  | .fcons t f', pid => by
    simp [flattenF, parentsF, flattenT_parents t pid, flattenF_parents f' pid]
end

theorem jLookup_pySet_eq (d : List (String × JVal)) (k : String) (v : JVal) :
    jLookup (pySet d k v) k = some v := by
  induction d with
  | nil => simp [pySet, jLookup]
  | cons hd tl ih =>
    obtain ⟨k', v'⟩ := hd
    by_cases hk : k' = k
    · simp [pySet, hk, jLookup]
    · simp [pySet, hk, jLookup, ih]

theorem jLookup_pySet_ne (d : List (String × JVal)) (k k' : String) (v : JVal)
    (h : k ≠ k') : jLookup (pySet d k v) k' = jLookup d k' := by
  induction d with
  | nil => simp [pySet, jLookup, h]
  | cons hd tl ih =>
    obtain ⟨k0, v0⟩ := hd
    by_cases hk : k0 = k
    · simp [pySet, hk, jLookup, h]
    · simp [pySet, hk, jLookup, ih]

theorem ytm_shape (d : List (String × JVal)) (v : JVal)
    (h : extract_youtube_media d = .ok v) :
    v = .str "None" ∨
      ∃ a u ti vi, v =
        .dict [("media_author_name", a), ("media_author_url", u),
               ("video_title", ti), ("video_id", vi)] := by
  simp only [extract_youtube_media] at h
  repeat' split at h
  all_goals try exact Except.noConfusion h
  all_goals injection h with h'
  all_goals first
    | exact Or.inl h'.symm
    | exact Or.inr ⟨_, _, _, _, h'.symm⟩

theorem threadDict_media_lookup (doc : List (String × JVal))
    (urls : List String) :
    jLookupD (threadDictOf doc urls) "media" JVal.null =
      jLookupD doc "media" JVal.null := by
  simp [threadDictOf, jLookupD, jLookup]

theorem parse_thread_ws (doc : List (String × JVal)) (h : WellShaped doc) :
    ∃ s, jLookup doc "selftext" = some (JVal.str s) ∧
      parse_thread doc = .ok (threadDictOf doc (url_findall s)) := by
  obtain ⟨⟨s, hs⟩, hsub, hauth, hmed⟩ := h
  refine ⟨s, hs, ?_⟩
  have hsub' : ∃ v, attrGetD (jLookupDefDict doc "subreddit") "id" JVal.null =
      .ok v := by
    rcases hsub with h1 | ⟨kvs, h1⟩ <;> simp [jLookupDefDict, h1, attrGetD]
  have hauth' : ∃ v,
      (if isStrNone (jLookupD doc "author" JVal.null) then Except.ok JVal.null
       else attrGetD (jLookupDefDict doc "author") "name" JVal.null) =
        .ok v := by
    rcases hauth with h1 | h1 | ⟨kvs, h1⟩ <;>
      simp [jLookupD, jLookupDefDict, h1, isStrNone, attrGetD]
  have hurls : extract_urls_from_selftext doc = .ok (url_findall s) := by
    simp [extract_urls_from_selftext, jLookupD, hs]
  have hyt : extract_youtube_media (threadDictOf doc (url_findall s)) =
      .ok (.str "None") := by
    simp only [extract_youtube_media, threadDict_media_lookup]
    rcases hmed with h1 | h1 | h1 <;>
      simp [jLookupD, h1, isStrNone, literal_eval]
  obtain ⟨sv, hsubv⟩ := hsub'
  obtain ⟨av, hauthv⟩ := hauth'
  simp only [parse_thread, hsubv, hauthv, hurls, hyt]
  simp [isStrNone]

/-- C1: flattening a comment forest of N total nodes through
`_parse_comment_tree` (every root with a null `parent_id`, results
concatenated in forest order) yields exactly N flat records, and record by
record the `parent_id` column is null for roots and the direct source
parent's `id` field for every reply. -/
theorem c1_flatten_count_and_parents (f : CForest) :
    ∃ L, parse_comment_forest (fsize f) (forestDocs f) = some (.ok L) ∧
      L.length = fsize f ∧ L.map CRec.parent_id = parentsF f JVal.null :=
  ⟨flattenF f JVal.null,
    parse_forest_correct f (fsize f) JVal.null (Nat.le_refl _),
    flattenF_length f JVal.null, flattenF_parents f JVal.null⟩

/-- C5: the flattening preserves document pre-order — the result is exactly
the pre-order flattening in which each node's record precedes all of its
descendants' records and siblings keep their source order. -/
theorem c5_preorder (f : CForest) :
    parse_comment_forest (fsize f) (forestDocs f) =
      some (.ok (flattenF f JVal.null)) :=
  parse_forest_correct f (fsize f) JVal.null (Nat.le_refl _)

/-- C8: on every finite comment tree the recursion of `_parse_comment_tree`
terminates — a recursion budget equal to the number of nodes is never
exhausted (the fuel-indexed embedding returns `some` rather than the
out-of-budget marker `none`). -/
theorem c8_termination (t : CTree) (p : JVal) :
    ∃ res, parse_comment_tree (csize t) (treeDoc t) p = some res :=
  ⟨_, parse_tree_correct t (csize t) p (Nat.le_refl _)⟩

/-- C9: the comment flattener copies the raw `author` value verbatim — a
comment whose `author` field is the sentinel string `"None"` yields a record
whose `author_name` is that very string — whereas `parse_thread` maps the
same sentinel to a null `author_name`. -/
theorem c9_comment_author_verbatim :
    (∀ fs cs p, jLookupD fs "author" JVal.null = JVal.str "None" →
      ∃ rest, parse_comment_tree (csize (CTree.node fs cs))
          (treeDoc (CTree.node fs cs)) p =
          some (.ok (commentRecord fs p :: rest)) ∧
        (commentRecord fs p).author_name = JVal.str "None") ∧
    (∀ doc r, jLookupD doc "author" JVal.null = JVal.str "None" →
      parse_thread doc = .ok r →
      jLookup r "author_name" = some JVal.null) := by
  constructor
  · intro fs cs p h
    refine ⟨flattenF cs (jLookupD fs "id" JVal.null), ?_, ?_⟩
    · have hbr := parse_tree_correct (CTree.node fs cs) (csize (CTree.node fs cs))
        p (Nat.le_refl _)
      simpa [flattenT] using hbr
    · simp [commentRecord, h]
  · intro doc r hauthor hok
    have han : authorNameVal doc = JVal.null := by
      simp [authorNameVal, hauthor, isStrNone]
    simp only [parse_thread] at hok
    repeat' split at hok
    all_goals try exact Except.noConfusion hok
    · injection hok with h'
      subst h'
      simp [threadDictOf, jLookup, han]
    · rename_i es heq hns
      injection hok with h'
      subst h'
      rcases ytm_shape _ _ heq with hsh | ⟨a, u, ti, vi, hsh⟩
      · exact absurd hsh (by simp)
      · injection hsh with hes
        subst hes
        simp [pyUpdate, jLookup_pySet_ne, threadDictOf, jLookup, han]

/-- C9 witness: a one-node comment whose `author` is the string `"None"`
keeps that string in its record, while a thread document with the same
sentinel gets a null `author_name`. -/
theorem c9_witness :
    (∃ rest,
      parse_comment_tree (csize (CTree.node [("author", JVal.str "None")] CForest.fnil))
          (treeDoc (CTree.node [("author", JVal.str "None")] CForest.fnil)) JVal.null =
        some (.ok (commentRecord [("author", JVal.str "None")] JVal.null :: rest)) ∧
      (commentRecord [("author", JVal.str "None")] JVal.null).author_name =
        JVal.str "None") ∧
    jLookup (threadDictOf [("author", JVal.str "None"), ("selftext", JVal.str "")]
        (url_findall "")) "author_name" = some JVal.null :=
  ⟨c9_comment_author_verbatim.1 [("author", JVal.str "None")] CForest.fnil JVal.null rfl,
   c9_comment_author_verbatim.2 [("author", JVal.str "None"), ("selftext", JVal.str "")]
     (threadDictOf [("author", JVal.str "None"), ("selftext", JVal.str "")]
       (url_findall "")) rfl rfl⟩

/-- C2: the spec's "no fatal error path within the core" fails on the code —
on the empty document (any document without a string self-text),
`parse_thread` calls `re.findall(None)` and raises `TypeError` instead of
producing a sparser record. -/
theorem c2_parse_thread_raises_on_empty_doc :
    parse_thread [] = .error PyErr.tyErr := rfl

/-- C3: `extract_urls_from_selftext` on an absent or null self-text does not
return the empty sequence the spec promises: `url_pattern.findall(None)`
raises `TypeError` in both cases. -/
theorem c3_extract_urls_raises_on_null_selftext :
    extract_urls_from_selftext [] = .error PyErr.tyErr ∧
    extract_urls_from_selftext [("selftext", JVal.null)] = .error PyErr.tyErr :=
  ⟨rfl, rfl⟩

/-- C6: on the spec's example self-text the URL pattern finds exactly the two
URLs, the trailing sentence period excluded from the second match. -/
theorem c6_url_extraction_example :
    extract_urls_from_selftext
      [("selftext",
        JVal.str "See https://example.com/a and http://foo.bar/b?x=1.")] =
      .ok ["https://example.com/a", "http://foo.bar/b?x=1"] := rfl

/-- C4 counterexample: a media value with the recognized `youtube.com`
discriminator but no `oembed` sub-document does not degrade to absent
embedded-media data — `media_dict["oembed"]` raises an uncaught `KeyError`,
so `parse_thread` raises instead of returning a record. -/
theorem c4_counterexample_partial_media_raises :
    parse_thread [("selftext", JVal.str ""),
                  ("media", JVal.str "\x7b'type': 'youtube.com'\x7d")] =
      .error PyErr.keyErr := rfl

/-- C4 (amended): whenever `parse_thread` returns a record at all, the four
embedded-media fields are present as a group or entirely absent; but a
recognized provider discriminator with a missing required sub-field raises
`KeyError` rather than degrading to the absent group. -/
theorem c4_media_fields_all_or_none (doc r : List (String × JVal))
    (hok : parse_thread doc = .ok r) :
    ((jLookup r "media_author_name").isSome ∧
     (jLookup r "media_author_url").isSome ∧
     (jLookup r "video_title").isSome ∧ (jLookup r "video_id").isSome) ∨
    (jLookup r "media_author_name" = none ∧
     jLookup r "media_author_url" = none ∧
     jLookup r "video_title" = none ∧ jLookup r "video_id" = none) := by
  simp only [parse_thread] at hok
  repeat' split at hok
  all_goals try exact Except.noConfusion hok
  · injection hok with h'
    subst h'
    right
    simp [threadDictOf, jLookup]
  · rename_i es heq hns
    injection hok with h'
    subst h'
    rcases ytm_shape _ _ heq with hsh | ⟨a, u, ti, vi, hsh⟩
    · exact absurd hsh (by simp)
    · injection hsh with hes
      subst hes
      left
      simp [pyUpdate, jLookup_pySet_eq, jLookup_pySet_ne]

/-- C4 witness: a plain self-text-only document parses to a record with none
of the four embedded-media fields. -/
theorem c4_witness :
    parse_thread [("selftext", JVal.str "")] =
      .ok (threadDictOf [("selftext", JVal.str "")] (url_findall "")) ∧
    (((jLookup (threadDictOf [("selftext", JVal.str "")] (url_findall ""))
        "media_author_name").isSome ∧
      (jLookup (threadDictOf [("selftext", JVal.str "")] (url_findall ""))
        "media_author_url").isSome ∧
      (jLookup (threadDictOf [("selftext", JVal.str "")] (url_findall ""))
        "video_title").isSome ∧
      (jLookup (threadDictOf [("selftext", JVal.str "")] (url_findall ""))
        "video_id").isSome) ∨
     (jLookup (threadDictOf [("selftext", JVal.str "")] (url_findall ""))
        "media_author_name" = none ∧
      jLookup (threadDictOf [("selftext", JVal.str "")] (url_findall ""))
        "media_author_url" = none ∧
      jLookup (threadDictOf [("selftext", JVal.str "")] (url_findall ""))
        "video_title" = none ∧
      jLookup (threadDictOf [("selftext", JVal.str "")] (url_findall ""))
        "video_id" = none)) :=
  ⟨rfl, c4_media_fields_all_or_none [("selftext", JVal.str "")]
    (threadDictOf [("selftext", JVal.str "")] (url_findall "")) rfl⟩

/-- C7 counterexample: a document with no `score` key (and no self-text) does
not yield a record with score 0 — `parse_thread` raises `TypeError` from
`re.findall(None)`, so "absent optional fields map to defaults rather than an
error" fails as a universal statement. -/
theorem c7_counterexample_missing_selftext_raises :
    parse_thread [("num_comments", JVal.int 3)] = .error PyErr.tyErr := rfl

/-- C7 (amended): on documents whose self-text is a string and whose
`subreddit`/`author`/`media` values are shaped so that no accessor raises,
every absent optional field maps to its defined default: 0 for counts, false
for the flag, null for identifiers and text, and the `"None"` author sentinel
to a null author. -/
theorem c7_absent_fields_default (doc : List (String × JVal))
    (h : WellShaped doc) :
    ∃ r, parse_thread doc = .ok r ∧
      (jLookup doc "score" = none → jLookup r "score" = some (JVal.int 0)) ∧
      (jLookup doc "author" = none → jLookup r "author_name" = some JVal.null) ∧
      (jLookup doc "author" = some (JVal.str "None") →
        jLookup r "author_name" = some JVal.null) ∧
      (jLookup doc "title" = none → jLookup r "title" = some JVal.null) ∧
      (jLookup doc "num_comments" = none →
        jLookup r "num_comments" = some (JVal.int 0)) ∧
      (jLookup doc "media_only" = none →
        jLookup r "media_only" = some (JVal.bool false)) ∧
      (jLookup doc "ups" = none → jLookup r "ups" = some (JVal.int 0)) := by
  obtain ⟨s, hs, hok⟩ := parse_thread_ws doc h
  refine ⟨_, hok, ?_, ?_, ?_, ?_, ?_, ?_, ?_⟩
  all_goals intro hnone
  all_goals
    simp [threadDictOf, jLookup, authorNameVal, jLookupD, jLookupDefDict,
      isStrNone, hnone]

/-- C7 witness: the minimal well-shaped document (only an empty self-text)
gets every default. -/
theorem c7_witness :
    WellShaped [("selftext", JVal.str "")] ∧
    (∃ r, parse_thread [("selftext", JVal.str "")] = .ok r ∧
      (jLookup [("selftext", JVal.str "")] "score" = none →
        jLookup r "score" = some (JVal.int 0)) ∧
      (jLookup [("selftext", JVal.str "")] "author" = none →
        jLookup r "author_name" = some JVal.null) ∧
      (jLookup [("selftext", JVal.str "")] "author" = some (JVal.str "None") →
        jLookup r "author_name" = some JVal.null) ∧
      (jLookup [("selftext", JVal.str "")] "title" = none →
        jLookup r "title" = some JVal.null) ∧
      (jLookup [("selftext", JVal.str "")] "num_comments" = none →
        jLookup r "num_comments" = some (JVal.int 0)) ∧
      (jLookup [("selftext", JVal.str "")] "media_only" = none →
        jLookup r "media_only" = some (JVal.bool false)) ∧
      (jLookup [("selftext", JVal.str "")] "ups" = none →
        jLookup r "ups" = some (JVal.int 0))) :=
  ⟨⟨⟨"", rfl⟩, Or.inl rfl, Or.inl rfl, Or.inl rfl⟩,
   c7_absent_fields_default [("selftext", JVal.str "")]
     ⟨⟨"", rfl⟩, Or.inl rfl, Or.inl rfl, Or.inl rfl⟩⟩

/-- C10 counterexample: a thread document with no `media` key does not in
general produce a record — without a string self-text, `parse_thread` raises
`TypeError` before the media value is even examined. -/
theorem c10_counterexample_no_media_still_raises :
    parse_thread [("title", JVal.str "t")] = .error PyErr.tyErr := rfl

/-- C10 (amended): on a well-shaped document with no `media` key, the decode
of the null media value fails with a `ValueError` that is caught, and
`parse_thread` returns a record whose `media` field is null and which carries
none of the four embedded-media keys. -/
theorem c10_absent_media_degrades (doc : List (String × JVal))
    (h : WellShaped doc) (hm : jLookup doc "media" = none) :
    ∃ r, parse_thread doc = .ok r ∧ jLookup r "media" = some JVal.null ∧
      jLookup r "media_author_name" = none ∧
      jLookup r "media_author_url" = none ∧
      jLookup r "video_title" = none ∧ jLookup r "video_id" = none := by
  obtain ⟨s, hs, hok⟩ := parse_thread_ws doc h
  refine ⟨_, hok, ?_, ?_, ?_, ?_, ?_⟩ <;>
    simp [threadDictOf, jLookup, jLookupD, hm]

/-- C10 witness: the self-text-only document has no `media` key and parses to
a record with a null `media` field and no embedded-media keys. -/
theorem c10_witness :
    WellShaped [("selftext", JVal.str "")] ∧
    jLookup [("selftext", JVal.str "")] "media" = none ∧
    (∃ r, parse_thread [("selftext", JVal.str "")] = .ok r ∧
      jLookup r "media" = some JVal.null ∧
      jLookup r "media_author_name" = none ∧
      jLookup r "media_author_url" = none ∧
      jLookup r "video_title" = none ∧ jLookup r "video_id" = none) :=
  ⟨⟨⟨"", rfl⟩, Or.inl rfl, Or.inl rfl, Or.inl rfl⟩, rfl,
   c10_absent_media_degrades [("selftext", JVal.str "")]
     ⟨⟨"", rfl⟩, Or.inl rfl, Or.inl rfl, Or.inl rfl⟩ rfl⟩
